import Mathlib

/-!
# Fallout76MarketplaceKarmaAPI — shallow embedding and verification

This file embeds the Python sources `db_operations.py`, `db_routes.py` and
`main.py` of the Fallout76MarketplaceKarmaAPI repository in Lean 4 and proves
properties of the embedded operations.

Modelling choices:
* The MongoDB collection is a list of documents in insertion order; `find_one`
  returns the first document matching the filter, `insert_one` appends,
  `replace_one` replaces the first matching document.
* A document is an association list from field names to field values.  A field
  value is a BSON string, a BSON integer, or an array of gamertag entries.  A
  gamertag entry is either the dict produced by pydantic `model_dump` (BSON
  encodable) or a raw pydantic `Gamertag` object (NOT BSON encodable: the
  driver raises `InvalidDocument` when asked to encode one).  The source
  passes raw objects on the insert path (`db_operations.py` line 139) and
  dumped dicts on the replace path (line 112), so the distinction is visible
  in the embedding.
* Driver writes carry an abstract acknowledgment flag `ack : Bool`:
  `insert_one` reports it back (the source reads `insert_result.acknowledged`),
  `replace_one` also reports it but `update_user_profile` discards it.
* Exceptions that the source does not catch (BSON encoding failures, pydantic
  validation failures on decode) are modelled with `Except String`.
-/

namespace KarmaAPI

/-- The `platform` field of a `Gamertag`: `Literal["XBOX", "PlayStation", "PC"]`. -/
inductive Platform where
  | XBOX
  | PlayStation
  | PC
deriving DecidableEq, Repr

/-- Serialization of a `Platform` literal, as pydantic dumps it. -/
def Platform.toStr : Platform → String
  | .XBOX => "XBOX"
  | .PlayStation => "PlayStation"
  | .PC => "PC"

/-- Parsing a string back into the `Literal` type during pydantic validation. -/
def Platform.parse : String → Option Platform
  | "XBOX" => some .XBOX
  | "PlayStation" => some .PlayStation
  | "PC" => some .PC
  | _ => none

/-- `Gamertag` pydantic model (`db_operations.py` lines 44-58). -/
structure Gamertag where
  gamertag : String
  gamertag_id : String
  platform : Platform
deriving DecidableEq, Repr

/-- The pydantic field constraints on `Gamertag`: `gamertag` has
`min_length=1`; `gamertag_id` has `min_length=1` and pattern `^\d+$`. -/
def Gamertag.isValid (g : Gamertag) : Bool :=
  decide (1 ≤ g.gamertag.length) &&
  decide (1 ≤ g.gamertag_id.length) &&
  g.gamertag_id.toList.all Char.isDigit

/-- `UserProfile` pydantic model (`db_operations.py` lines 61-78). -/
structure UserProfile where
  reddit_username : String
  karma : Int
  gamertags : List Gamertag
  m76_karma : Int
deriving DecidableEq, Repr

/-- A `UserProfile` satisfies its pydantic constraints iff every embedded
`Gamertag` does (the scalar fields of `UserProfile` are unconstrained). -/
def UserProfile.isValid (p : UserProfile) : Bool :=
  p.gamertags.all Gamertag.isValid

/-- An entry of the `gamertags` array of a stored document: either the dict
produced by `Gamertag.model_dump` or a raw pydantic `Gamertag` object that was
handed to the driver without dumping. -/
inductive GValue where
  | dumped (g : Gamertag)
  | pyObject (g : Gamertag)
deriving DecidableEq, Repr

/-- A field value of a stored document. -/
inductive FieldValue where
  | str (s : String)
  | int (i : Int)
  | tags (l : List GValue)
deriving DecidableEq, Repr

/-- A MongoDB document: an association list from field names to values. -/
abbrev Document := List (String × FieldValue)

/-- The `user_karma` collection, in insertion order. -/
abbrev Store := List Document

/-- Field access in a document (first binding wins). -/
def getField (d : Document) (k : String) : Option FieldValue :=
  (d.find? (fun kv => decide (kv.1 = k))).map (fun kv => kv.2)

/-- The BSON encoder accepts a dumped gamertag dict and rejects a raw
pydantic object (`bson.errors.InvalidDocument`). -/
def GValue.encodable : GValue → Bool
  | .dumped _ => true
  | .pyObject _ => false

/-- BSON encodability of a field value. -/
def FieldValue.encodable : FieldValue → Bool
  | .str _ => true
  | .int _ => true
  | .tags l => l.all GValue.encodable

/-- BSON encodability of a whole document. -/
def doc_encodable (d : Document) : Bool :=
  d.all (fun kv => kv.2.encodable)

/-- `users_collection.find_one({"reddit_username": u})`: the first document
whose `reddit_username` field equals `u`. -/
def find_one (reddit_username : String) (c : Store) : Option Document :=
  c.find? (fun d => decide (getField d "reddit_username" = some (.str reddit_username)))

/-- `users_collection.insert_one(doc)`: appends the document if the BSON
encoder accepts it, else raises `InvalidDocument`.  Returns the store's
acknowledgment flag (`insert_result.acknowledged`). -/
def insert_one (ack : Bool) (doc : Document) (c : Store) : Except String (Bool × Store) :=
  if doc_encodable doc then .ok (ack, c ++ [doc]) else .error "InvalidDocument"

/-- Replace the first document whose `reddit_username` field equals `u`. -/
def replaceFirst (u : String) (doc : Document) : Store → Store
  | [] => []
  | d :: rest =>
    if getField d "reddit_username" = some (.str u) then doc :: rest
    else d :: replaceFirst u doc rest

/-- `users_collection.replace_one({"reddit_username": u}, doc)`: replaces the
first matching document if the BSON encoder accepts the replacement, else
raises `InvalidDocument`.  Returns the store's acknowledgment flag. -/
def replace_one (ack : Bool) (reddit_username : String) (doc : Document) (c : Store) :
    Except String (Bool × Store) :=
  if doc_encodable doc then .ok (ack, replaceFirst reddit_username doc c)
  else .error "InvalidDocument"

/-- `gamertag.model_dump()` as embedded in `user_profile.model_dump()`. -/
def Gamertag.dump (g : Gamertag) : GValue := .dumped g

/-- `user_profile.model_dump()` (`db_operations.py` line 112): every field,
with nested models recursively dumped to dicts. -/
def UserProfile.model_dump (p : UserProfile) : Document :=
  [("reddit_username", .str p.reddit_username),
   ("karma", .int p.karma),
   ("gamertags", .tags (p.gamertags.map Gamertag.dump)),
   ("m76_karma", .int p.m76_karma)]

/-- The literal dict built on the insert path (`db_operations.py` lines
134-141): scalar fields are taken from the profile, but `gamertags` is the raw
list of pydantic `Gamertag` objects, NOT dumped. -/
def insert_document (p : UserProfile) : Document :=
  [("reddit_username", .str p.reddit_username),
   ("karma", .int p.karma),
   ("m76_karma", .int p.m76_karma),
   ("gamertags", .tags (p.gamertags.map GValue.pyObject))]

/-- Pydantic validation of one entry of a stored `gamertags` array.  A dumped
dict is re-validated against the field constraints; an already-constructed
`Gamertag` instance is accepted as-is (pydantic default
`revalidate_instances="never"`). -/
def GValue.validate : GValue → Option Gamertag
  | .dumped g => if g.isValid then some g else none
  | .pyObject g => some g

/-- Element-wise pydantic validation of a stored `gamertags` array: fails as
soon as one entry fails. -/
def validate_tags : List GValue → Option (List Gamertag)
  | [] => some []
  | v :: rest =>
    match GValue.validate v, validate_tags rest with
    | some g, some gs => some (g :: gs)
    | _, _ => none

/-- Pydantic validation `UserProfile(**profile)` of a stored document: reads
the four declared fields by name (extra fields such as `_id` are ignored) and
validates each `gamertags` entry. -/
def UserProfile.validate (d : Document) : Option UserProfile :=
  match getField d "reddit_username", getField d "karma",
        getField d "gamertags", getField d "m76_karma" with
  | some (.str u), some (.int k), some (.tags l), some (.int m) =>
    (validate_tags l).map (fun gs => ⟨u, k, gs, m⟩)
  | _, _, _, _ => none

/-- `find_profile` (`db_operations.py` lines 81-95): `find_one`, then `None`
if absent, else `UserProfile(**profile)` (whose validation failure is an
uncaught exception).  The collection is threaded through unchanged: the
function performs no write. -/
def find_profile (reddit_username : String) (users_collection : Store) :
    Except String (Option UserProfile × Store) :=
  match find_one reddit_username users_collection with
  | none => .ok (none, users_collection)
  | some profile =>
    match UserProfile.validate profile with
    | some p => .ok (some p, users_collection)
    | none => .error "ValidationError"

/-- `update_user_profile` (`db_operations.py` lines 98-114): `find_one`, and
if found, `replace_one` with the dumped profile, returning `True`
unconditionally (the `UpdateResult` acknowledgment is discarded); if not
found, returns `False` without writing. -/
def update_user_profile (ack : Bool) (user_profile : UserProfile) (users_collection : Store) :
    Except String (Bool × Store) :=
  match find_one user_profile.reddit_username users_collection with
  | some _ =>
    match replace_one ack user_profile.reddit_username user_profile.model_dump users_collection with
    | .error e => .error e
    | .ok (_acknowledged, c2) => .ok (true, c2)
  | none => .ok (false, users_collection)

/-- `add_user_profile` (`db_operations.py` lines 117-143): `find_one`, and if
found, returns `False` without writing; if not found, `insert_one` with the
raw dict of `insert_document` and returns `insert_result.acknowledged`. -/
def add_user_profile (ack : Bool) (user_profile : UserProfile) (users_collection : Store) :
    Except String (Bool × Store) :=
  match find_one user_profile.reddit_username users_collection with
  | some _ => .ok (false, users_collection)
  | none =>
    match insert_one ack (insert_document user_profile) users_collection with
    | .error e => .error e
    | .ok (acknowledged, c2) => .ok (acknowledged, c2)

/-! ## Route handlers (`db_routes.py`) -/

/-- A `JSONResponse(status_code=..., content={"message": ...})`: a status code
and a body holding a single `message` string field. -/
structure JsonResp where
  status_code : Nat
  message : String
deriving DecidableEq, Repr

/-- The body of a successful or failed `get_user` response: a serialized
`UserProfile` (status 200) or a `JSONResponse`. -/
inductive GetUserResponse where
  | profile (p : UserProfile)
  | json (r : JsonResp)
deriving DecidableEq, Repr

/-- `get_user` (`db_routes.py` lines 89-111): `find_profile`, then 404 with a
message naming the username when absent, else the profile with status 200.
The collection is threaded through unchanged. -/
def get_user (reddit_username : String) (c : Store) :
    Except String (GetUserResponse × Store) :=
  match find_profile reddit_username c with
  | .error e => .error e
  | .ok (none, c2) =>
    .ok (.json ⟨404, "Reddit username \x27" ++ reddit_username ++ "\x27 not found"⟩, c2)
  | .ok (some p, c2) => .ok (.profile p, c2)

/-- `update_gamertag` (`db_routes.py` lines 114-139): calls
`update_user_profile` and maps `True` to 200 and `False` to 404. -/
def update_gamertag (ack : Bool) (user_profile : UserProfile) (c : Store) :
    Except String (JsonResp × Store) :=
  match update_user_profile ack user_profile c with
  | .error e => .error e
  | .ok (true, c2) =>
    .ok (⟨200, "Karma Profile updated successfully for Reddit username: "
            ++ user_profile.reddit_username ++ "."⟩, c2)
  | .ok (false, c2) =>
    .ok (⟨404, "Reddit username \x27" ++ user_profile.reddit_username
            ++ "\x27 not found."⟩, c2)

/-- `add_profile` (`db_routes.py` lines 142-167): calls `add_user_profile`
and maps `True` to 200 and `False` to 400. -/
def add_profile (ack : Bool) (user_profile : UserProfile) (c : Store) :
    Except String (JsonResp × Store) :=
  match add_user_profile ack user_profile c with
  | .error e => .error e
  | .ok (true, c2) =>
    .ok (⟨200, "Karma Profile added successfully for Reddit username: "
            ++ user_profile.reddit_username ++ "."⟩, c2)
  | .ok (false, c2) =>
    .ok (⟨400, "Profile already exists or invalid fields in user profile."⟩, c2)

/-! ## The API-key gate (`db_routes.py` lines 28-61) -/

/-- Outcome of `verify_api_key`: either a 403 `HTTPException` with a detail
message, or the request is allowed through. -/
inductive GateResult where
  | forbidden (status_code : Nat) (detail : String)
  | allow
deriving DecidableEq, Repr

/-- `verify_api_key` (`db_routes.py` lines 31-55) for a single invocation.
`api_key` is the `X-API-Key` header (absent headers arrive as `None` since
`auto_error=False`); `env_api_key` is `getenv("API_KEY")`; `fresh_token` is
the value `secrets.token_hex(32)` computed DURING THIS CALL — the default
argument of `getenv` is evaluated eagerly on every invocation, and is used
for the comparison only when `API_KEY` is unset. -/
def verify_api_key (api_key : Option String) (env_api_key : Option String)
    (fresh_token : String) : GateResult :=
  match api_key with
  | none => .forbidden 403 "Missing API Key"
  | some k =>
    if k = env_api_key.getD fresh_token then .allow
    else .forbidden 403 "Invalid API Key"

/-- The gate across a sequence of requests: `token_hex call` is the random
token generated by the `call`-th invocation of `verify_api_key` (a fresh
token is produced by `secrets.token_hex(32)` on each call). -/
def verify_api_key_at (env_api_key : Option String) (token_hex : Nat → String)
    (call : Nat) (api_key : Option String) : GateResult :=
  verify_api_key api_key env_api_key (token_hex call)

/-- A route mounted under `protected_router` (whose dependencies include
`Depends(verify_api_key)`): the handler runs on the unmodified body exactly
when the gate allows, otherwise the 403 response is returned and the handler
never runs. -/
def gated_route {α β : Type} (api_key env_api_key : Option String)
    (fresh_token : String) (handler : α → β) (body : α) :
    Except (Nat × String) β :=
  match verify_api_key api_key env_api_key fresh_token with
  | .forbidden s d => .error (s, d)
  | .allow => .ok (handler body)

/-! ## `main.py` -/

/-- A starlette `RedirectResponse`: target URL and status code. -/
structure RedirectResponse where
  url : String
  status_code : Nat
deriving DecidableEq, Repr

/-- `RedirectResponse(url)` with the constructor's default status code,
which starlette defines as `status_code: int = 307`. -/
def RedirectResponse.mk_default (url : String) : RedirectResponse :=
  ⟨url, 307⟩

/-- `redirect_to_docs` (`main.py` lines 27-29): `RedirectResponse("/docs")`
with no explicit status code. -/
def redirect_to_docs : RedirectResponse :=
  RedirectResponse.mk_default "/docs"

/-- The route `GET /` as registered in `main.py`: directly on `app`, with no
`verify_api_key` dependency, so the response is independent of any
`X-API-Key` header the client may or may not send. -/
def root_route (_api_key : Option String) : RedirectResponse :=
  redirect_to_docs

/-! ## Helper lemmas -/

/-- The output of `model_dump` is always BSON encodable: nested models are
recursively dumped to dicts. -/
theorem doc_encodable_model_dump (p : UserProfile) :
    doc_encodable p.model_dump = true := by
  simp [doc_encodable, UserProfile.model_dump, FieldValue.encodable,
    List.all_eq_true]
  intro g _hg
  rfl

/-- Re-validating a list of dumped gamertags recovers the original list when
every gamertag satisfies its constraints. -/
theorem validate_tags_dump (gs : List Gamertag) (h : gs.all Gamertag.isValid = true) :
    validate_tags (gs.map Gamertag.dump) = some gs := by
  induction gs with
  | nil => rfl
  | cons g rest ih =>
    simp only [List.all_cons, Bool.and_eq_true] at h
    simp [validate_tags, Gamertag.dump, GValue.validate, h.1, ih h.2]

/-- `UserProfile(**profile)` on the dump of a valid profile recovers the
profile exactly, every field included. -/
theorem validate_model_dump (p : UserProfile) (h : p.isValid = true) :
    UserProfile.validate p.model_dump = some p := by
  have h1 : getField p.model_dump "reddit_username" = some (.str p.reddit_username) := rfl
  have h2 : getField p.model_dump "karma" = some (.int p.karma) := rfl
  have h3 : getField p.model_dump "gamertags" = some (.tags (p.gamertags.map Gamertag.dump)) := rfl
  have h4 : getField p.model_dump "m76_karma" = some (.int p.m76_karma) := rfl
  rw [UserProfile.validate, h1, h2, h3, h4]
  dsimp only
  rw [validate_tags_dump p.gamertags h]
  rfl

/-- The `reddit_username` field of a dumped profile. -/
theorem getField_model_dump_username (p : UserProfile) :
    getField p.model_dump "reddit_username" = some (.str p.reddit_username) := rfl

/-- After replacing the first document keyed by `u` with a document also
keyed by `u`, `find_one u` returns the replacement. -/
theorem find_one_replaceFirst (u : String) (doc : Document) (c : Store)
    (hdoc : getField doc "reddit_username" = some (.str u))
    (hc : find_one u c ≠ none) :
    find_one u (replaceFirst u doc c) = some doc := by
  induction c with
  | nil => simp [find_one] at hc
  | cons d rest ih =>
    by_cases hd : getField d "reddit_username" = some (.str u)
    · simp [replaceFirst, hd, find_one, List.find?_cons, hdoc]
    · simp only [replaceFirst, hd, if_false]
      have hc2 : find_one u rest ≠ none := by
        simpa [find_one, List.find?_cons, hd] using hc
      simpa [find_one, List.find?_cons, hd] using ih hc2

/-- Every member of `replaceFirst u doc c` is the replacement or an original
member. -/
theorem mem_replaceFirst (u : String) (doc x : Document) (c : Store)
    (hx : x ∈ replaceFirst u doc c) : x = doc ∨ x ∈ c := by
  induction c with
  | nil => simp [replaceFirst] at hx
  | cons d rest ih =>
    by_cases hd : getField d "reddit_username" = some (.str u)
    · simp only [replaceFirst, hd, if_true, List.mem_cons] at hx
      rcases hx with h | h
      · exact Or.inl h
      · exact Or.inr (List.mem_cons_of_mem d h)
    · simp only [replaceFirst, hd, if_false, List.mem_cons] at hx
      rcases hx with h | h
      · exact Or.inr (by simp [h])
      · rcases ih h with h2 | h2
        · exact Or.inl h2
        · exact Or.inr (List.mem_cons_of_mem d h2)

/-- The key by which the collection is logically indexed. -/
def userKey (d : Document) : Option FieldValue :=
  getField d "reddit_username"

/-- The invariant: every username identifies at most one stored document,
i.e. the `reddit_username` fields of the stored documents are pairwise
distinct. -/
def UniqueUsernames (c : Store) : Prop :=
  c.Pairwise (fun d1 d2 => userKey d1 ≠ userKey d2)

instance (c : Store) : Decidable (UniqueUsernames c) := by
  unfold UniqueUsernames
  infer_instance

/-- Replacing the first document keyed by `u` with another document keyed by
`u` preserves key uniqueness. -/
theorem pairwise_replaceFirst (u : String) (doc : Document) (c : Store)
    (hdoc : userKey doc = some (.str u)) (h : UniqueUsernames c) :
    UniqueUsernames (replaceFirst u doc c) := by
  induction c with
  | nil => exact h
  | cons d rest ih =>
    rw [UniqueUsernames, List.pairwise_cons] at h
    by_cases hd : getField d "reddit_username" = some (.str u)
    · simp only [replaceFirst, hd, if_true]
      rw [UniqueUsernames, List.pairwise_cons]
      refine ⟨fun d2 h2 => ?_, h.2⟩
      rw [hdoc, ← hd]
      exact h.1 d2 h2
    · simp only [replaceFirst, hd, if_false]
      rw [UniqueUsernames, List.pairwise_cons]
      refine ⟨fun d2 h2 => ?_, ih h.2⟩
      rcases mem_replaceFirst u doc d2 rest h2 with h3 | h3
      · rw [h3, hdoc]
        exact fun hcontra => hd hcontra
      · exact h.1 d2 h3

/-- When `find_one u c = none`, no stored document is keyed by `u`. -/
theorem not_key_of_find_one_none (u : String) (c : Store)
    (h : find_one u c = none) :
    ∀ d ∈ c, userKey d ≠ some (.str u) := by
  intro d hd
  have := List.find?_eq_none.mp h d hd
  simpa [userKey] using this

/-- Appending a document keyed by a username absent from the store preserves
key uniqueness. -/
theorem pairwise_append_new (u : String) (doc : Document) (c : Store)
    (hdoc : userKey doc = some (.str u)) (h : UniqueUsernames c)
    (habs : find_one u c = none) :
    UniqueUsernames (c ++ [doc]) := by
  rw [UniqueUsernames, List.pairwise_append]
  refine ⟨h, List.pairwise_singleton _ _, ?_⟩
  intro d hd d2 hd2
  rw [List.mem_singleton] at hd2
  rw [hd2, hdoc]
  exact not_key_of_find_one_none u c habs d hd

/-! ## Concrete fixtures -/

/-- A gamertag satisfying every pydantic constraint. -/
def xbox_tag : Gamertag := ⟨"ab", "1", .XBOX⟩

/-- A profile with one gamertag. -/
def alice_tagged : UserProfile := ⟨"alice", 0, [xbox_tag], 0⟩

/-- A profile with an empty gamertags list. -/
def alice_plain : UserProfile := ⟨"alice", 0, [], 0⟩

/-- A second user, empty gamertags list. -/
def bob_plain : UserProfile := ⟨"bob", 2, [], 3⟩

/-- A replacement profile for `bob_plain` changing every non-key field. -/
def bob_updated : UserProfile := ⟨"bob", 5, [xbox_tag], 7⟩

/-! ## Claims -/

/-- C1: the spec claims that for every valid `UserProfile` whose username is
not in the store, `add_user_profile` followed by `find_profile` yields the
profile back, full gamertags list included.  The code violates this: the
insert path hands the raw pydantic `Gamertag` objects to the driver
(`db_operations.py` line 139, unlike the `model_dump()` on the replace path
at line 112), and the BSON encoder rejects them, so inserting any profile
with a nonempty gamertags list raises `InvalidDocument` instead of writing.
This theorem evaluates the code at the failing input `alice_tagged` (one
valid gamertag, empty store) and, for contrast, shows that with an empty
gamertags list the round trip does hold. -/
theorem insert_raw_gamertags_breaks_roundtrip :
    add_user_profile true alice_tagged [] = .error "InvalidDocument" ∧
    (add_user_profile true alice_plain [] = .ok (true, [insert_document alice_plain]) ∧
     find_profile "alice" [insert_document alice_plain] =
       .ok (some alice_plain, [insert_document alice_plain])) :=
  ⟨rfl, rfl, rfl⟩

/-- C2: for every profile whose username is already present, POST
(`add_profile` / `add_user_profile`) returns status 400 with the fixed
message and leaves the whole store unchanged: no write is performed on the
already-exists branch. -/
theorem post_existing_returns_400 (ack : Bool) (p : UserProfile) (c : Store)
    (h : find_one p.reddit_username c ≠ none) :
    add_profile ack p c =
      .ok (⟨400, "Profile already exists or invalid fields in user profile."⟩, c) := by
  cases hfind : find_one p.reddit_username c with
  | none => exact absurd hfind h
  | some d => simp [add_profile, add_user_profile, hfind]

/-- Witness for C2: a concrete second POST of `alice_plain`. -/
theorem post_existing_returns_400_witness :
    add_profile true alice_plain [UserProfile.model_dump alice_plain] =
      .ok (⟨400, "Profile already exists or invalid fields in user profile."⟩,
        [UserProfile.model_dump alice_plain]) :=
  post_existing_returns_400 true alice_plain [UserProfile.model_dump alice_plain] (by decide)

/-- C3: for every valid profile whose username is already present, PUT
(`update_gamertag` / `update_user_profile`) returns status 200 with the
success message, and a subsequent `find_profile` for that username returns
exactly the new profile — every field of the stored document was rewritten
from the provided profile (full replace, never a partial merge). -/
theorem put_existing_full_replace (ack : Bool) (p : UserProfile) (c : Store)
    (hv : p.isValid = true) (hp : find_one p.reddit_username c ≠ none) :
    ∃ c2, update_gamertag ack p c =
        .ok (⟨200, "Karma Profile updated successfully for Reddit username: "
            ++ p.reddit_username ++ "."⟩, c2) ∧
      find_profile p.reddit_username c2 = .ok (some p, c2) := by
  cases hfind : find_one p.reddit_username c with
  | none => exact absurd hfind hp
  | some d =>
    refine ⟨replaceFirst p.reddit_username p.model_dump c, ?_, ?_⟩
    · simp [update_gamertag, update_user_profile, hfind, replace_one,
        doc_encodable_model_dump]
    · have hne : find_one p.reddit_username c ≠ none := by simp [hfind]
      have hfo := find_one_replaceFirst p.reddit_username p.model_dump c
        (getField_model_dump_username p) hne
      simp [find_profile, hfo, validate_model_dump p hv]

/-- Witness for C3: replacing `bob_plain` by `bob_updated`, which changes
every non-key field including the gamertags list. -/
theorem put_existing_full_replace_witness :
    ∃ c2, update_gamertag false bob_updated [UserProfile.model_dump bob_plain] =
        .ok (⟨200, "Karma Profile updated successfully for Reddit username: "
            ++ bob_updated.reddit_username ++ "."⟩, c2) ∧
      find_profile bob_updated.reddit_username c2 = .ok (some bob_updated, c2) :=
  put_existing_full_replace false bob_updated [UserProfile.model_dump bob_plain]
    (by decide) (by decide)

/-- C4: for every username not in the store, GET (`get_user`) returns 404
with a body holding a single `message` string field whose text contains that
username, and PUT (`update_gamertag`) for an absent username returns 404 and
writes nothing: the store is returned unchanged. -/
theorem get_put_missing_return_404 (u : String) (ack : Bool) (p : UserProfile)
    (c : Store) (hu : find_one u c = none)
    (hp : find_one p.reddit_username c = none) :
    (get_user u c =
        .ok (.json ⟨404, "Reddit username \x27" ++ u ++ "\x27 not found"⟩, c) ∧
      List.IsInfix u.toList
        ("Reddit username \x27" ++ u ++ "\x27 not found").toList) ∧
    update_gamertag ack p c =
      .ok (⟨404, "Reddit username \x27" ++ p.reddit_username
          ++ "\x27 not found."⟩, c) := by
  refine ⟨⟨?_, ?_⟩, ?_⟩
  · simp [get_user, find_profile, hu]
  · exact ⟨("Reddit username \x27").toList, ("\x27 not found").toList,
      by simp [String.toList]⟩
  · simp [update_gamertag, update_user_profile, hp]

/-- Witness for C4: GET for "carol" and PUT for `bob_plain` on a store that
holds only `alice_plain`. -/
theorem get_put_missing_return_404_witness :
    (get_user "carol" [UserProfile.model_dump alice_plain] =
        .ok (.json ⟨404, "Reddit username \x27" ++ "carol" ++ "\x27 not found"⟩,
          [UserProfile.model_dump alice_plain]) ∧
      List.IsInfix ("carol").toList
        ("Reddit username \x27" ++ "carol" ++ "\x27 not found").toList) ∧
    update_gamertag true bob_plain [UserProfile.model_dump alice_plain] =
      .ok (⟨404, "Reddit username \x27" ++ bob_plain.reddit_username
          ++ "\x27 not found."⟩, [UserProfile.model_dump alice_plain]) :=
  get_put_missing_return_404 "carol" true bob_plain
    [UserProfile.model_dump alice_plain] (by decide) (by decide)

/-- C5: with the server secret configured, a gated request with no
`X-API-Key` header is rejected 403 "Missing API Key"; one with a header not
equal to the secret is rejected 403 "Invalid API Key"; one with the correct
header is forwarded unchanged to the handler, regardless of body. -/
theorem gate_branches {α β : Type} (secret fresh_token k : String)
    (handler : α → β) (body : α) (hk : k ≠ secret) :
    gated_route none (some secret) fresh_token handler body =
      .error (403, "Missing API Key") ∧
    gated_route (some k) (some secret) fresh_token handler body =
      .error (403, "Invalid API Key") ∧
    gated_route (some secret) (some secret) fresh_token handler body =
      .ok (handler body) := by
  refine ⟨rfl, ?_, ?_⟩
  · simp [gated_route, verify_api_key, Option.getD, hk]
  · simp [gated_route, verify_api_key, Option.getD]

/-- Witness for C5 at a concrete secret, header and handler. -/
theorem gate_branches_witness :
    gated_route none (some "s3cr3t") "tok" (fun n => n + 1) (41 : Nat) =
      .error (403, "Missing API Key") ∧
    gated_route (some "wrong") (some "s3cr3t") "tok" (fun n => n + 1) 41 =
      .error (403, "Invalid API Key") ∧
    gated_route (some "s3cr3t") (some "s3cr3t") "tok" (fun n => n + 1) 41 =
      .ok 42 :=
  gate_branches "s3cr3t" "tok" "wrong" (fun n => n + 1) 41 (by decide)

/-- C6 counterexample: the claim says the fallback secret is generated once
and held in memory for the process lifetime, so that every gated request is
rejected while `API_KEY` is unset.  In the code the default argument of
`getenv` is evaluated eagerly, so `secrets.token_hex(32)` produces a FRESH
token on every invocation: with the per-call tokens modelled by the stream
`fun n => toString n`, the same header `"1"` is rejected at call 0 but
accepted at call 1 — the compared secret is not a single value held for the
process lifetime, and a request whose header equals that call's fresh token
is forwarded, not rejected. -/
theorem gate_fresh_token_each_call :
    verify_api_key_at none (fun n => toString n) 1 (some "1") = .allow ∧
    verify_api_key_at none (fun n => toString n) 0 (some "1") =
      .forbidden 403 "Invalid API Key" :=
  ⟨by decide, by decide⟩

/-- C6 (amended): when `API_KEY` is unset, each invocation of the gate
generates a fresh random token and compares against it, so a request is
rejected unless its header happens to equal the token freshly generated
during that very call (which a caller cannot produce when the token is
cryptographically random): a missing header gives 403 "Missing API Key" and
any header different from that call's token gives 403 "Invalid API Key". -/
theorem gate_unset_env_rejects (token_hex : Nat → String) (call : Nat)
    (k : String) (hk : k ≠ token_hex call) :
    verify_api_key_at none token_hex call none =
      .forbidden 403 "Missing API Key" ∧
    verify_api_key_at none token_hex call (some k) =
      .forbidden 403 "Invalid API Key" := by
  refine ⟨rfl, ?_⟩
  simp [verify_api_key_at, verify_api_key, Option.getD, hk]

/-- Witness for the amended C6 at a concrete token stream and header. -/
theorem gate_unset_env_rejects_witness :
    verify_api_key_at none (fun _ => "aa") 0 none =
      .forbidden 403 "Missing API Key" ∧
    verify_api_key_at none (fun _ => "aa") 0 (some "bb") =
      .forbidden 403 "Invalid API Key" :=
  gate_unset_env_rejects (fun _ => "aa") 0 "bb" (by decide)

/-- C7: once the initial lookup finds the username, `update_user_profile`
returns `True` no matter what the store's acknowledgment is (the write's
`UpdateResult` is discarded), whereas `add_user_profile` reports `True` only
when the store acknowledges the insert: on the not-found branch its boolean
result is exactly the acknowledgment flag. -/
theorem replace_ignores_ack_insert_returns_ack (ack : Bool) (p : UserProfile)
    (c : Store) :
    (find_one p.reddit_username c ≠ none →
      ∃ c2, update_user_profile ack p c = .ok (true, c2)) ∧
    (∀ b c2, add_user_profile ack p c = .ok (b, c2) →
      find_one p.reddit_username c = none → b = ack) := by
  constructor
  · intro h
    cases hfind : find_one p.reddit_username c with
    | none => exact absurd hfind h
    | some d =>
      exact ⟨replaceFirst p.reddit_username p.model_dump c,
        by simp [update_user_profile, hfind, replace_one, doc_encodable_model_dump]⟩
  · intro b c2 hok hnone
    rw [add_user_profile, hnone] at hok
    by_cases henc : doc_encodable (insert_document p) = true
    · rw [insert_one, if_pos henc] at hok
      simp only [Except.ok.injEq, Prod.mk.injEq] at hok
      exact hok.1.symm
    · rw [insert_one, if_neg henc] at hok
      exact absurd hok (by simp)

/-- Witness for C7: `update_user_profile` answers `True` even with the
acknowledgment flag `false`, and `add_user_profile` with flag `false`
answers `false` on a fresh insert. -/
theorem replace_ignores_ack_insert_returns_ack_witness :
    (∃ c2, update_user_profile false alice_plain [UserProfile.model_dump alice_plain] =
      .ok (true, c2)) ∧ (false : Bool) = false :=
  ⟨(replace_ignores_ack_insert_returns_ack false alice_plain
      [UserProfile.model_dump alice_plain]).1 (by decide),
   (replace_ignores_ack_insert_returns_ack false bob_plain []).2 false
      [insert_document bob_plain] rfl rfl⟩

/-- C8: from a store in which every username identifies at most one
document, each of the three operations preserves that invariant: insert
refuses to write when the username is present and otherwise appends a fresh
key, replace only overwrites the one existing document with that key, and
lookup never changes the store. -/
theorem ops_preserve_unique_usernames (ack : Bool) (p : UserProfile)
    (u : String) (c : Store) (hI : UniqueUsernames c) :
    (∀ b c2, add_user_profile ack p c = .ok (b, c2) → UniqueUsernames c2) ∧
    (∀ b c2, update_user_profile ack p c = .ok (b, c2) → UniqueUsernames c2) ∧
    (∀ r c2, find_profile u c = .ok (r, c2) → UniqueUsernames c2) := by
  refine ⟨?_, ?_, ?_⟩
  · intro b c2 hok
    cases hfind : find_one p.reddit_username c with
    | some d =>
      rw [add_user_profile, hfind] at hok
      simp only [Except.ok.injEq, Prod.mk.injEq] at hok
      rw [← hok.2]
      exact hI
    | none =>
      rw [add_user_profile, hfind] at hok
      by_cases henc : doc_encodable (insert_document p) = true
      · rw [insert_one, if_pos henc] at hok
        simp only [Except.ok.injEq, Prod.mk.injEq] at hok
        rw [← hok.2]
        exact pairwise_append_new p.reddit_username (insert_document p) c rfl hI hfind
      · rw [insert_one, if_neg henc] at hok
        exact absurd hok (by simp)
  · intro b c2 hok
    cases hfind : find_one p.reddit_username c with
    | some d =>
      rw [update_user_profile, hfind, replace_one,
        if_pos (doc_encodable_model_dump p)] at hok
      simp only [Except.ok.injEq, Prod.mk.injEq] at hok
      rw [← hok.2]
      exact pairwise_replaceFirst p.reddit_username p.model_dump c rfl hI
    | none =>
      rw [update_user_profile, hfind] at hok
      simp only [Except.ok.injEq, Prod.mk.injEq] at hok
      rw [← hok.2]
      exact hI
  · intro r c2 hok
    cases hfind : find_one u c with
    | none =>
      rw [find_profile, hfind] at hok
      simp only [Except.ok.injEq, Prod.mk.injEq] at hok
      rw [← hok.2]
      exact hI
    | some d =>
      cases hval : UserProfile.validate d with
      | none =>
        rw [find_profile, hfind] at hok
        simp only [hval] at hok
        exact absurd hok (by simp)
      | some q =>
        rw [find_profile, hfind] at hok
        simp only [hval, Except.ok.injEq, Prod.mk.injEq] at hok
        rw [← hok.2]
        exact hI

/-- Witness for C8: inserting `bob_plain` into a one-document store keeps
the usernames pairwise distinct. -/
theorem ops_preserve_unique_usernames_witness :
    UniqueUsernames [UserProfile.model_dump alice_plain, insert_document bob_plain] :=
  (ops_preserve_unique_usernames true bob_plain "x"
      [UserProfile.model_dump alice_plain] (by decide)).1 true
    [UserProfile.model_dump alice_plain, insert_document bob_plain] rfl

/-- C9 counterexample: the claim says GET `/` returns a 302 redirect.
`main.py` returns `RedirectResponse("/docs")` without a status code, and the
constructor's default is 307, not 302. -/
theorem root_redirect_not_302 : ¬ redirect_to_docs.status_code = 302 := by
  decide

/-- C9 (amended): a GET request to `/` returns a 307 redirect to `/docs`,
with no authentication required — the response is the same whatever
`X-API-Key` header (or none) the client sends, since the route is registered
without the gate dependency. -/
theorem root_redirects_307_no_auth :
    ∀ h : Option String, root_route h = ⟨"/docs", 307⟩ :=
  fun _ => rfl

/-- C10: `find_profile` — and hence GET (`get_user`) — performs no write:
whenever the call returns (rather than propagating a decode failure), the
store it hands back is exactly the store it was given, found or not.  The
docstring's claim that a missing profile is created with default values has
no counterpart in the code. -/
theorem lookup_performs_no_write (u : String) (c : Store) :
    (find_profile u c = .error "ValidationError" ∨
      ∃ r, find_profile u c = .ok (r, c)) ∧
    (get_user u c = .error "ValidationError" ∨
      ∃ resp, get_user u c = .ok (resp, c)) := by
  constructor
  · cases hfind : find_one u c with
    | none => exact Or.inr ⟨none, by rw [find_profile, hfind]⟩
    | some d =>
      cases hval : UserProfile.validate d with
      | none => exact Or.inl (by rw [find_profile, hfind]; simp only [hval])
      | some q => exact Or.inr ⟨some q, by rw [find_profile, hfind]; simp only [hval]⟩
  · cases hfind : find_one u c with
    | none =>
      exact Or.inr ⟨.json ⟨404, "Reddit username \x27" ++ u ++ "\x27 not found"⟩,
        by rw [get_user, find_profile, hfind]⟩
    | some d =>
      cases hval : UserProfile.validate d with
      | none =>
        exact Or.inl (by rw [get_user, find_profile, hfind]; simp only [hval])
      | some q =>
        exact Or.inr ⟨.profile q,
          by rw [get_user, find_profile, hfind]; simp only [hval]⟩

end KarmaAPI
